import Mathlib

/-!
Shallow embedding of `src/run.py`, a streaming ETL pipeline that fetches
paginated article batches from the PLOS search API, enriches each article
with author/affiliation metadata from the DOAJ API, folds the results into
three frequency counters (authors, journals, departments) and emits ranked
CSV reports.

Conventions of the embedding:
* Python `dict` documents become structures with `Option` fields; a field
  read with `.get(k, default)` is modelled by the default when absent.
* Python truthiness of strings (`if doi:`) is `none`/empty-string falsy.
* Python `collections.Counter` is modelled as an insertion-ordered
  association list `List (K × Nat)`; `Counter.update(list)` increments the
  first matching entry (appending unseen keys at the end), exactly as the
  underlying insertion-ordered dict behaves.
* HTTP effects are modelled by passing the response a `requests.get` would
  return as an explicit argument; queue puts and sleeps become explicit
  effect lists so that their number and payloads can be reasoned about.
-/

namespace Run

/-- Truthiness of a Python string: the empty string is falsy. -/
def strTruthy (s : String) : Bool := !s.isEmpty

/-- Truthiness of a possibly missing Python string (`None` and `''` falsy). -/
def optTruthy : Option String → Bool
  | none => false
  | some s => strTruthy s

/-- A DOAJ author entry: a dict with optional `name` and `affiliation` keys,
read in `Counters.update_counters` via `author.get('name', None)` and
`author.get('affiliation', None)`. -/
structure DoajAuthor where
  name : Option String
  affiliation : Option String
deriving DecidableEq, Repr

/-- An article document. The pipeline reads the keys `id` (the DOI),
`journal`, `author_display`, and — after enrichment — `doaj_id` and
`doaj_authors`. All other keys of the JSON document are irrelevant to the
pipeline and omitted. `doaj_authors` is read with default `[]` and
`doaj_id`/`id`/`journal` with default `None`, which the `Option`/list
fields reproduce. -/
structure Article where
  id : Option String
  journal : Option String
  author_display : List String
  doaj_id : Option String
  doaj_authors : List DoajAuthor
deriving DecidableEq, Repr

/-! ### PLOSAPIReader -/

/-- Body of a PLOS search response: the `response` object with its optional
`docs` array (`content.get('docs', None)`). -/
structure PlosContent where
  docs : Option (List Article)
deriving DecidableEq, Repr

/-- A PLOS HTTP response: status code and the optional `response` object of
the JSON body (`response.json().get('response', None)`; an absent or falsy
`response` object is modelled as `none`). -/
structure PlosResponse where
  status : Nat
  response : Option PlosContent
deriving DecidableEq, Repr

/-- Result of one `PLOSAPIReader.__next__` call: either a batch of docs
(returned list) or `StopIteration` (end of sequence). -/
inductive PlosOutcome where
  | batch (docs : List Article)
  | stop
deriving DecidableEq, Repr

/-- One call of `PLOSAPIReader.__next__`, as a function of the reader's
cursor `_start` and of the HTTP response the GET at that cursor returns.
Faithful to `src/run.py` lines 27–42: on status 200 the cursor advances by
100 first; then an absent/falsy `response` object or an absent/empty `docs`
array raises `StopIteration`, and a non-empty `docs` array is returned as
the batch. Any non-200 status returns `[]` without advancing the cursor. -/
def plosNext (start : Nat) (resp : PlosResponse) : Nat × PlosOutcome :=
  if resp.status = 200 then
    let advanced := start + 100
    match resp.response with
    | none => (advanced, PlosOutcome.stop)
    | some content =>
      match content.docs with
      | none => (advanced, PlosOutcome.stop)
      | some [] => (advanced, PlosOutcome.stop)
      | some docs => (advanced, PlosOutcome.batch docs)
  else
    (start, PlosOutcome.batch [])

/-- Whether a PLOS response has an empty body: no `response` object, or a
missing/empty `docs` array. This is the condition under which `__next__`
raises `StopIteration` on a 200 status. -/
def PlosResponse.emptyBody (r : PlosResponse) : Bool :=
  match r.response with
  | none => true
  | some content =>
    match content.docs with
    | none => true
    | some [] => true
    | some (_ :: _) => false

/-! ### DOAJValidator -/

/-- The `bibjson` object of a DOAJ search result, with its optional
`author` array (`doaj_article['bibjson'].get('author', [])`). -/
structure DoajBibjson where
  author : Option (List DoajAuthor)
deriving DecidableEq, Repr

/-- One result of a DOAJ article search: its `id` and `bibjson` object. -/
structure DoajResult where
  id : String
  bibjson : DoajBibjson
deriving DecidableEq, Repr

/-- A DOAJ HTTP response: status code and the optional `results` array of
the JSON body (`response.json().get('results', None)`). -/
structure DoajResponse where
  status : Nat
  results : Option (List DoajResult)
deriving DecidableEq, Repr

/-- A unit of work travelling through the queues: `(sequence position,
article)`, as enqueued by the driver loop. -/
abbrev WorkItem := Nat × Article

/-- The fixed backoff used by `DOAJValidator` (`self._delay = 10`). -/
def doajDelay : Nat := 10

/-- The observable effects of one `DOAJValidator.validate_and_link` call:
items put on the sink (output) queue, items put back on the source (input)
queue, sleep durations, and whether the article was dropped
(log-and-skip). -/
structure ValidateEffects where
  sinkPuts : List WorkItem
  sourcePuts : List WorkItem
  sleeps : List Nat
  dropped : Bool
deriving DecidableEq, Repr

/-- The metadata merge performed in the success branch of
`validate_and_link`: `article['doaj_id'] = doaj_article['id']` and
`article['doaj_authors'] = doaj_article['bibjson'].get('author', [])`. -/
def mergeDoaj (article : Article) (doaj_article : DoajResult) : Article :=
  { article with
    doaj_id := some doaj_article.id
    doaj_authors := doaj_article.bibjson.author.getD [] }

/-- One `DOAJValidator.validate_and_link` call (`src/run.py` lines
102–129), as a function of the dequeued task and of the HTTP response the
DOAJ GET for its DOI returns (the GET only happens when the DOI is truthy;
the response argument is unused otherwise). Branches, in source order:
truthy DOI and status 200 with a non-empty `results` array → merge the
first result into the article and put the pair on the sink; status 200
without results → drop; status 429 → put the task back on the source queue
and sleep `doajDelay`; any other status → put the task back without
sleeping; falsy DOI → drop. -/
def validate_and_link (task : WorkItem) (resp : DoajResponse) : ValidateEffects :=
  if optTruthy task.2.id then
    if resp.status = 200 then
      match resp.results with
      | some (doaj_article :: _) =>
        { sinkPuts := [(task.1, mergeDoaj task.2 doaj_article)]
          sourcePuts := [], sleeps := [], dropped := false }
      | some [] =>
        { sinkPuts := [], sourcePuts := [], sleeps := [], dropped := true }
      | none =>
        { sinkPuts := [], sourcePuts := [], sleeps := [], dropped := true }
    else if resp.status = 429 then
      { sinkPuts := [], sourcePuts := [task], sleeps := [doajDelay], dropped := false }
    else
      { sinkPuts := [], sourcePuts := [task], sleeps := [], dropped := false }
  else
    { sinkPuts := [], sourcePuts := [], sleeps := [], dropped := true }

/-- Net effect of one iteration of `DOAJValidator.run` on the source
queue's unfinished-task count: each `put` issued by `validate_and_link`
raises it by one, and the `task_done()` that follows the call lowers it by
one. (`get` does not change the unfinished-task count.) -/
def runStepPending (pending : Int) (eff : ValidateEffects) : Int :=
  pending + eff.sourcePuts.length - 1

/-- Number of outcomes one `validate_and_link` call performs: forwarded
items plus re-enqueued items plus one if dropped. -/
def ValidateEffects.outcomeCount (eff : ValidateEffects) : Nat :=
  eff.sinkPuts.length + eff.sourcePuts.length + (if eff.dropped then 1 else 0)

/-! ### Counters (Python `collections.Counter` as an ordered assoc list) -/

/-- Key folded into the author and department counters:
`(name, doaj_id, plos_id)` tuples, see `Counters.update_counters`. -/
abbrev AKey := String × Option String × Option String

/-- Key folded into the journal counter:
`(article.get('journal', None), doaj_id, plos_id)`. -/
abbrev JKey := Option String × Option String × Option String

/-- A `collections.Counter` over keys `K`: an association list in key
insertion order (Python dicts preserve insertion order). -/
abbrev Counter (K : Type) := List (K × Nat)

/-- Increment one key by one: bump the first matching entry, or append the
key with count 1 when unseen (new dict keys go to the end). -/
def Counter.incr {K : Type} [DecidableEq K] : Counter K → K → Counter K
  | [], k => [(k, 1)]
  | (k', n) :: rest, k =>
    if k = k' then (k', n + 1) :: rest else (k', n) :: Counter.incr rest k

/-- `Counter.update(iterable)`: count the elements of a list into the
counter, one increment per occurrence, in list order. -/
def Counter.update {K : Type} [DecidableEq K] (c : Counter K) (ks : List K) : Counter K :=
  ks.foldl Counter.incr c

/-- Add one `(key, count)` entry into a counter: `self[elem] = count +
self_get(elem, 0)`, appending the key when unseen. -/
def Counter.addEntry {K : Type} [DecidableEq K] : Counter K → K × Nat → Counter K
  | [], e => [e]
  | (k', n) :: rest, (k, m) =>
    if k = k' then (k', n + m) :: rest else (k', n) :: Counter.addEntry rest (k, m)

/-- `Counter.update(mapping)`: add every entry of the second counter into
the first, in the second counter's entry order. -/
def Counter.updateC {K : Type} [DecidableEq K] (c other : Counter K) : Counter K :=
  other.foldl Counter.addEntry c

/-- The count a counter holds for a key (0 when absent); summing over all
matching entries makes the definition total on arbitrary entry lists. -/
def Counter.countOf {K : Type} [DecidableEq K] : Counter K → K → Nat
  | [], _ => 0
  | (k', n) :: rest, k => (if k = k' then n else 0) + Counter.countOf rest k

/-- The three shared counters mutated by `Counters.update_counters`. -/
structure CountersState where
  authors : Counter AKey
  journals : Counter JKey
  departments : Counter AKey
deriving DecidableEq, Repr

/-- The `authors` key list built by `Counters.update_counters`: with a
non-empty `doaj_authors` list, one `(name, doaj_id, plos_id)` key per
entry with a truthy name; otherwise one key per `author_display` entry. -/
def authorKeyList (article : Article) : List AKey :=
  if article.doaj_authors ≠ [] then
    article.doaj_authors.filterMap fun author =>
      match author.name with
      | some name =>
        if strTruthy name then some (name, article.doaj_id, article.id) else none
      | none => none
  else
    article.author_display.map fun author => (author, article.doaj_id, article.id)

/-- The `deps` key list built by `Counters.update_counters`: with a
non-empty `doaj_authors` list, one `(affiliation, doaj_id, plos_id)` key
per entry with a truthy affiliation; otherwise empty (no fallback). -/
def depKeyList (article : Article) : List AKey :=
  if article.doaj_authors ≠ [] then
    article.doaj_authors.filterMap fun author =>
      match author.affiliation with
      | some dep =>
        if strTruthy dep then some (dep, article.doaj_id, article.id) else none
      | none => none
  else
    []

/-- The `journals` key list built by `Counters.update_counters`: always the
single element `(article.get('journal', None), doaj_id, plos_id)`, also
when the journal name is absent. -/
def journalKeyList (article : Article) : List JKey :=
  [(article.journal, article.doaj_id, article.id)]

/-- One `Counters.update_counters` call (`src/run.py` lines 150–176).
The three key lists are built as in the source; then line 174 folds the
author keys and line 176 the journal key. Line 175, however, reads
`self._departments.update(departments)`: the local `deps` list is never
used, and the name `departments` resolves to the module-level counter —
the very object `self._departments` aliases — so the departments counter
is merged with itself instead of with the affiliation keys. -/
def update_counters (s : CountersState) (task : Nat × Article) : CountersState :=
  { authors := Counter.update s.authors (authorKeyList task.2)
    journals := Counter.update s.journals (journalKeyList task.2)
    departments := Counter.updateC s.departments s.departments }

/-- Folding a list of dequeued tasks into the counters, one
`update_counters` call per task. -/
def foldCounters (s : CountersState) (tasks : List (Nat × Article)) : CountersState :=
  tasks.foldl update_counters s

/-! ### save_csv -/

/-- A cell of a CSV row: the values `list(k) + [v]` can contain are
strings, `None`, and the integer count. -/
inductive PyVal where
  | str (s : String)
  | pynone
  | num (n : Nat)
deriving DecidableEq, Repr

/-- Embedding of an optional string cell. -/
def optVal : Option String → PyVal
  | none => PyVal.pynone
  | some s => PyVal.str s

/-- The cells `list(k)` of an author/department key. -/
def AKey.cells (k : AKey) : List PyVal :=
  [PyVal.str k.1, optVal k.2.1, optVal k.2.2]

/-- The cells `list(k)` of a journal key. -/
def JKey.cells (k : JKey) : List PyVal :=
  [optVal k.1, optVal k.2.1, optVal k.2.2]

/-- Order used by `Counter.most_common()`: descending count
(`sorted(self.items(), key=itemgetter(1), reverse=True)`). -/
def countGE {K : Type} (a b : K × Nat) : Prop := b.2 ≤ a.2

instance countGE.decRel {K : Type} : DecidableRel (@countGE K) :=
  fun a b => Nat.decLe b.2 a.2

instance countGE.isTotal {K : Type} : IsTotal (K × Nat) (@countGE K) :=
  ⟨fun a b => Nat.le_total b.2 a.2⟩

instance countGE.isTrans {K : Type} : IsTrans (K × Nat) (@countGE K) :=
  ⟨fun _ _ _ hab hbc => Nat.le_trans hbc hab⟩

/-- `Counter.most_common()` with no argument: the entries sorted by count
descending by a stable sort (CPython uses `sorted`, which is stable, so
ties keep insertion order; any two stable sorts under the same total
preorder agree, so insertion sort reproduces it). -/
def Counter.most_common {K : Type} (c : Counter K) : Counter K :=
  List.insertionSort countGE c

/-- `save_csv` (`src/run.py` lines 179–184): one row `list(k) + [v]` per
`most_common()` entry, in `most_common()` order, with no filtering. -/
def save_csv {K : Type} (cells : K → List PyVal) (c : Counter K) : List (List PyVal) :=
  (Counter.most_common c).map fun kv => cells kv.1 ++ [PyVal.num kv.2]

/-! ### Concrete sample data for witnesses and counterexamples -/

/-- A sample article with a DOI and one enriched author that has an
affiliation. -/
def artAff : Article :=
  { id := some "10.1371/journal.pone.0076005"
    journal := some "PLoS ONE"
    author_display := ["Kolappan Chockalingam"]
    doaj_id := some "doaj-0001"
    doaj_authors := [{ name := some "Alice", affiliation := some "Physics" }] }

/-- A sample article with no journal name, no DOI and no enrichment. -/
def artNoJournal : Article :=
  { id := none
    journal := none
    author_display := []
    doaj_id := none
    doaj_authors := [] }

/-- A sample un-enriched article with a DOI, as fetched from PLOS. -/
def artPlain : Article :=
  { id := some "10.1371/journal.pone.0000001"
    journal := some "PLoS ONE"
    author_display := ["Bob", "Carol"]
    doaj_id := none
    doaj_authors := [] }

/-- The empty counters state created at startup. -/
def initCounters : CountersState :=
  { authors := [], journals := [], departments := [] }

/-- A throttled DOAJ response. -/
def respThrottle : DoajResponse := { status := 429, results := none }

/-- A sample DOAJ search result. -/
def doajRes0 : DoajResult :=
  { id := "doaj-0001"
    bibjson := { author := some [{ name := some "Ana", affiliation := some "Biology" }] } }

/-- A successful DOAJ response with one result. -/
def respMatch : DoajResponse := { status := 200, results := some [doajRes0] }

/-- A small author counter used to exhibit the shape of emitted rows. -/
def cDemoA : Counter AKey := [(("Alice", some "doaj-0001", some "plos-1"), 2)]

/-- The row `save_csv` writes for the single entry of `cDemoA`. -/
def rowDemo : List PyVal :=
  [PyVal.str "Alice", PyVal.str "doaj-0001", PyVal.str "plos-1", PyVal.num 2]

/-- A small journal counter (with a missing journal name) used to exhibit
the shape of emitted rows of the journals report. -/
def cDemoJ : Counter JKey := [((none, some "doaj-0001", some "plos-1"), 3)]

/-- The row `save_csv` writes for the single entry of `cDemoJ`. -/
def rowDemoJ : List PyVal :=
  [PyVal.pynone, PyVal.str "doaj-0001", PyVal.str "plos-1", PyVal.num 3]

/-- Number of occurrences of a key in a key list (the number of increments
`Counter.update` performs for that key). -/
def occCount {K : Type} [DecidableEq K] (k : K) : List K → Nat
  | [] => 0
  | a :: rest => (if k = a then 1 else 0) + occCount k rest

/-! ### Helper lemmas about counters -/

theorem countOf_incr {K : Type} [DecidableEq K] (c : Counter K) (k0 k : K) :
    Counter.countOf (Counter.incr c k0) k
      = Counter.countOf c k + (if k = k0 then 1 else 0) := by
  induction c with
  | nil => simp [Counter.incr, Counter.countOf]
  | cons e rest ih =>
    obtain ⟨k', n⟩ := e
    by_cases hk : k0 = k'
    · subst hk
      simp only [Counter.incr, if_pos rfl, Counter.countOf]
      by_cases hkk : k = k0 <;> simp [hkk] <;> omega
    · simp only [Counter.incr, if_neg hk, Counter.countOf, ih]
      omega

theorem countOf_update {K : Type} [DecidableEq K] (c : Counter K) (ks : List K) (k : K) :
    Counter.countOf (Counter.update c ks) k = Counter.countOf c k + occCount k ks := by
  induction ks generalizing c with
  | nil => simp [Counter.update, occCount]
  | cons a rest ih =>
    simp only [Counter.update, List.foldl_cons] at *
    rw [ih, countOf_incr, occCount, Nat.add_assoc]

theorem countOf_addEntry {K : Type} [DecidableEq K] (c : Counter K) (e : K × Nat) (k : K) :
    Counter.countOf (Counter.addEntry c e) k
      = Counter.countOf c k + (if k = e.1 then e.2 else 0) := by
  obtain ⟨k0, m⟩ := e
  induction c with
  | nil => simp [Counter.addEntry, Counter.countOf]
  | cons e' rest ih =>
    obtain ⟨k', n⟩ := e'
    by_cases hk : k0 = k'
    · subst hk
      simp only [Counter.addEntry, if_pos rfl, Counter.countOf]
      by_cases hkk : k = k0 <;> simp [hkk] <;> omega
    · simp only [Counter.addEntry, if_neg hk, Counter.countOf, ih]
      omega

theorem countOf_updateC {K : Type} [DecidableEq K] (c d : Counter K) (k : K) :
    Counter.countOf (Counter.updateC c d) k
      = Counter.countOf c k + Counter.countOf d k := by
  induction d generalizing c with
  | nil => simp [Counter.updateC, Counter.countOf]
  | cons e rest ih =>
    simp only [Counter.updateC, List.foldl_cons] at *
    rw [ih, countOf_addEntry, Counter.countOf]
    omega

/-! ### Helper lemmas about the counter fold -/

theorem foldCounters_authors (s : CountersState) (l : List (Nat × Article)) (k : AKey) :
    Counter.countOf (foldCounters s l).authors k
      = Counter.countOf s.authors k
        + (l.map fun t => occCount k (authorKeyList t.2)).sum := by
  induction l generalizing s with
  | nil => simp [foldCounters]
  | cons t rest ih =>
    simp only [foldCounters, List.foldl_cons, List.map_cons, List.sum_cons] at *
    rw [ih, update_counters]
    simp only [countOf_update]
    omega

theorem foldCounters_journals (s : CountersState) (l : List (Nat × Article)) (k : JKey) :
    Counter.countOf (foldCounters s l).journals k
      = Counter.countOf s.journals k
        + (l.map fun t => occCount k (journalKeyList t.2)).sum := by
  induction l generalizing s with
  | nil => simp [foldCounters]
  | cons t rest ih =>
    simp only [foldCounters, List.foldl_cons, List.map_cons, List.sum_cons] at *
    rw [ih, update_counters]
    simp only [countOf_update]
    omega

theorem foldCounters_departments (s : CountersState) (l : List (Nat × Article)) (k : AKey) :
    Counter.countOf (foldCounters s l).departments k
      = 2 ^ l.length * Counter.countOf s.departments k := by
  induction l generalizing s with
  | nil => simp [foldCounters]
  | cons t rest ih =>
    simp only [foldCounters, List.foldl_cons, List.length_cons] at *
    rw [ih, update_counters]
    simp only [countOf_updateC]
    ring

/-! ### Helper lemmas about most_common -/

theorem most_common_perm {K : Type} (c : Counter K) : (Counter.most_common c).Perm c :=
  List.perm_insertionSort countGE c

theorem most_common_sorted {K : Type} (c : Counter K) :
    (Counter.most_common c).Sorted countGE :=
  List.sorted_insertionSort countGE c

theorem most_common_filter {K : Type} (c : Counter K) (v : Nat) :
    (Counter.most_common c).filter (fun kv => kv.2 == v)
      = c.filter (fun kv => kv.2 == v) := by
  have hpair : (c.filter fun kv => kv.2 == v).Pairwise countGE := by
    apply List.pairwise_of_forall_mem_list
    intro a ha b hb
    have ha2 : a.2 = v := by simpa using (List.mem_filter.mp ha).2
    have hb2 : b.2 = v := by simpa using (List.mem_filter.mp hb).2
    show b.2 ≤ a.2
    omega
  have hsub : List.Sublist (c.filter fun kv => kv.2 == v) (Counter.most_common c) :=
    List.sublist_insertionSort hpair (List.filter_sublist c)
  have hperm : ((Counter.most_common c).filter fun kv => kv.2 == v).Perm
      (c.filter fun kv => kv.2 == v) :=
    (most_common_perm c).filter _
  have hself : ((c.filter fun kv => kv.2 == v).filter fun kv => kv.2 == v)
      = c.filter fun kv => kv.2 == v :=
    List.filter_eq_self.mpr fun a ha => (List.mem_filter.mp ha).2
  have hsub2 : List.Sublist (c.filter fun kv => kv.2 == v)
      ((Counter.most_common c).filter fun kv => kv.2 == v) := by
    have h2 := hsub.filter (fun kv => kv.2 == v)
    rwa [hself] at h2
  exact (hsub2.eq_of_length hperm.length_eq.symm).symm

theorem save_csv_row_shape {K : Type} (cells : K → List PyVal) (c : Counter K)
    (row : List PyVal) (h : row ∈ save_csv cells c) :
    ∃ k : K, ∃ n : Nat, (k, n) ∈ c ∧ row = cells k ++ [PyVal.num n] := by
  simp only [save_csv, List.mem_map] at h
  obtain ⟨⟨k, n⟩, hmem, heq⟩ := h
  exact ⟨k, n, (most_common_perm c).subset hmem, heq.symm⟩

/-! ### Claim theorems -/

/-- C1: the claim states that each enriched author entry's affiliation is
folded into the shared department frequency counter. The code computes the
affiliation key list (`deps`, here `depKeyList`), but line 175 updates the
departments counter with the name `departments` — the counter itself —
instead of `deps`, so affiliations are never folded: on an article with an
affiliated enriched author the departments counter stays empty, and in
general every `update_counters` call merely doubles every existing
department count. -/
theorem departments_counter_never_gains_affiliations :
    depKeyList artAff
        = [("Physics", some "doaj-0001", some "10.1371/journal.pone.0076005")]
      ∧ (update_counters initCounters (0, artAff)).departments = []
      ∧ ∀ (s : CountersState) (t : Nat × Article) (k : AKey),
          Counter.countOf (update_counters s t).departments k
            = 2 * Counter.countOf s.departments k := by
  refine ⟨rfl, rfl, fun s t k => ?_⟩
  show Counter.countOf (Counter.updateC s.departments s.departments) k = _
  rw [countOf_updateC]
  omega

/-- C2 counterexample: on an HTTP 429 the reader does not delay-and-retry;
it returns at once with an (empty) batch at the unadvanced cursor, the same
handling every non-200 status gets. -/
theorem plos_throttle_counterexample :
    plosNext 0 { status := 429, response := none } = (0, PlosOutcome.batch []) := rfl

/-- C2 amended: on any non-200 status — 429 included — `__next__` returns
an empty batch without advancing the cursor; the next call therefore polls
the same cursor again, but no 429-specific backoff delay exists (the only
delays are the client-side rate-limit decorators). -/
theorem plos_non200_empty_batch (start : Nat) (r : PlosResponse)
    (h : r.status ≠ 200) : plosNext start r = (start, PlosOutcome.batch []) := by
  unfold plosNext
  rw [if_neg h]

/-- Witness for the C2 amended theorem at a throttled response. -/
theorem plos_non200_empty_batch_witness :
    plosNext 300 { status := 429, response := none } = (300, PlosOutcome.batch []) :=
  plos_non200_empty_batch 300 { status := 429, response := none } (by decide)

/-- C3: on a 429 from DOAJ, `validate_and_link` puts the identical task
back on the source queue, sleeps the fixed backoff `doajDelay`, forwards
nothing — and the `task_done()` in `DOAJValidator.run` still runs for the
current dequeue, so the net effect on the unfinished-task count is zero
and the join barrier still converges. -/
theorem doaj_throttle_requeues_unchanged (task : WorkItem) (resp : DoajResponse)
    (h1 : optTruthy task.2.id = true) (h2 : resp.status = 429) :
    validate_and_link task resp
        = { sinkPuts := [], sourcePuts := [task], sleeps := [doajDelay], dropped := false }
      ∧ ∀ p : Int, runStepPending p (validate_and_link task resp) = p := by
  have heff : validate_and_link task resp
      = { sinkPuts := [], sourcePuts := [task], sleeps := [doajDelay], dropped := false } := by
    simp [validate_and_link, h1, h2]
  refine ⟨heff, fun p => ?_⟩
  rw [heff]
  simp [runStepPending]

/-- Witness for C3 at a concrete task and throttled response. -/
theorem doaj_throttle_requeues_unchanged_witness :
    validate_and_link (0, artPlain) respThrottle
        = { sinkPuts := [], sourcePuts := [(0, artPlain)], sleeps := [doajDelay],
            dropped := false }
      ∧ runStepPending 5 (validate_and_link (0, artPlain) respThrottle) = 5 :=
  ⟨(doaj_throttle_requeues_unchanged (0, artPlain) respThrottle rfl rfl).1,
   (doaj_throttle_requeues_unchanged (0, artPlain) respThrottle rfl rfl).2 5⟩

/-- C4 counterexample: the reader keeps no terminal flag. Here a call at
cursor 0 signals end-of-sequence (200 with empty docs), yet the very next
call — at the advanced cursor 100 — yields a batch because the server
returns non-empty docs there; so a batch is yielded after end-of-sequence
was signaled. -/
theorem plos_batch_after_stop_counterexample :
    plosNext 0 { status := 200, response := some { docs := some [] } }
        = (100, PlosOutcome.stop)
      ∧ plosNext 100 { status := 200, response := some { docs := some [artPlain] } }
        = (200, PlosOutcome.batch [artPlain]) := ⟨rfl, rfl⟩

/-- C4 amended: whether a call signals end-of-sequence depends only on the
response to that call — status 200 with an absent/empty body — never on
whether end-of-sequence was signaled before; termination is permanent only
for a server that keeps answering empty (in the driver it is the Python
iteration protocol that stops calling after the first `StopIteration`). -/
theorem plos_stop_iff_current_response_empty (start : Nat) (r : PlosResponse) :
    (plosNext start r).2 = PlosOutcome.stop ↔ (r.status = 200 ∧ r.emptyBody = true) := by
  rcases r with ⟨st, body⟩
  by_cases h : st = 200
  · subst h
    rcases body with _ | ⟨_ | ⟨_ | ⟨d, ds⟩⟩⟩ <;>
      simp [plosNext, PlosResponse.emptyBody]
  · simp [plosNext, PlosResponse.emptyBody, h]

/-- C5 counterexample: aggregating a record with no journal name puts the
all-missing key `(None, None, None)` into the journals counter, and
`save_csv` writes its row regardless — entries with an empty/falsy key are
not skipped. -/
theorem save_csv_empty_key_written_counterexample :
    save_csv JKey.cells (update_counters initCounters (0, artNoJournal)).journals
      = [[PyVal.pynone, PyVal.pynone, PyVal.pynone, PyVal.num 1]] := rfl

/-- C5 amended: the emitted report is the counter's entries sorted by
count descending; the sort is stable, so entries with equal counts keep
first-insertion order (entries of any fixed count appear exactly in
counter order); but nothing is skipped — one row is written per entry,
falsy/empty keys included. -/
theorem save_csv_sorted_stable_nothing_skipped {K : Type}
    (cells : K → List PyVal) (c : Counter K) :
    (Counter.most_common c).Sorted countGE
      ∧ (Counter.most_common c).Perm c
      ∧ (∀ v : Nat, (Counter.most_common c).filter (fun kv => kv.2 == v)
          = c.filter (fun kv => kv.2 == v))
      ∧ (save_csv cells c).length = c.length :=
  ⟨most_common_sorted c, most_common_perm c, most_common_filter c, by
    simp [save_csv, (most_common_perm c).length_eq]⟩

/-- C6 counterexample: for a record with no journal name the journal key
list is not empty — it is the single missing-component key, which is
folded, so the journals counter does contain an empty/missing key. -/
theorem journal_missing_key_counted_counterexample :
    journalKeyList artNoJournal = [(none, none, none)]
      ∧ (update_counters initCounters (0, artNoJournal)).journals
        = [((none, none, none), 1)] := ⟨rfl, rfl⟩

/-- C6 amended: every `update_counters` call folds exactly one journal key
`(journal-or-None, doaj_id, plos_id)` into the journals counter — also
when the journal name is absent; no empty-key filtering happens before
folding. -/
theorem journal_key_always_folded (s : CountersState) (t : Nat × Article) (k : JKey) :
    Counter.countOf (update_counters s t).journals k
      = Counter.countOf s.journals k
        + (if k = (t.2.journal, t.2.doaj_id, t.2.id) then 1 else 0) := by
  show Counter.countOf (Counter.update s.journals (journalKeyList t.2)) k = _
  rw [countOf_update]
  simp [journalKeyList, occCount]

/-- C7 counterexample: counter keys are `(value, doaj_id, plos_id)`
triples, so an emitted row is the three key cells followed by the count —
four cells, not a `(key, count)` pair. -/
theorem emitted_row_four_cells_counterexample :
    save_csv AKey.cells cDemoA = [rowDemo] ∧ rowDemo.length = 4 := ⟨rfl, rfl⟩

/-- C7 amended: every frequency counter — the author and department
counters over `AKey` and the journal counter over `JKey` alike — maps a
key triple `(name/journal/affiliation, doaj_id, plos_id)` to a
(non-negative) count, and every row either report emits consists of the
three cells of such a key followed by the count cell (four cells, not a
pair). -/
theorem emitted_rows_are_key_triple_and_count :
    (∀ (c : Counter AKey) (row : List PyVal), row ∈ save_csv AKey.cells c →
        ∃ k : AKey, ∃ n : Nat,
          (k, n) ∈ c ∧ row = AKey.cells k ++ [PyVal.num n] ∧ row.length = 4)
      ∧ (∀ (c : Counter JKey) (row : List PyVal), row ∈ save_csv JKey.cells c →
        ∃ k : JKey, ∃ n : Nat,
          (k, n) ∈ c ∧ row = JKey.cells k ++ [PyVal.num n] ∧ row.length = 4) := by
  constructor
  · intro c row h
    obtain ⟨k, n, hmem, heq⟩ := save_csv_row_shape AKey.cells c row h
    exact ⟨k, n, hmem, heq, by rw [heq]; simp [AKey.cells]⟩
  · intro c row h
    obtain ⟨k, n, hmem, heq⟩ := save_csv_row_shape JKey.cells c row h
    exact ⟨k, n, hmem, heq, by rw [heq]; simp [JKey.cells]⟩

/-- Witness for the C7 amended theorem at a concrete author counter and a
concrete journal counter (the latter with a missing journal name). -/
theorem emitted_rows_are_key_triple_and_count_witness :
    (∃ k : AKey, ∃ n : Nat,
        (k, n) ∈ cDemoA ∧ rowDemo = AKey.cells k ++ [PyVal.num n] ∧ rowDemo.length = 4)
      ∧ (∃ k : JKey, ∃ n : Nat,
        (k, n) ∈ cDemoJ ∧ rowDemoJ = JKey.cells k ++ [PyVal.num n] ∧ rowDemoJ.length = 4) :=
  ⟨emitted_rows_are_key_triple_and_count.1 cDemoA rowDemo (by decide),
   emitted_rows_are_key_triple_and_count.2 cDemoJ rowDemoJ (by decide)⟩

/-- C8: in every single `validate_and_link` call, exactly one of
forward-to-sink, re-enqueue-to-source and drop happens (their total number
of occurrences is 1), and in particular at most one item is ever forwarded
per dequeue, and no record is both dropped and forwarded. -/
theorem validate_outcome_exactly_one (task : WorkItem) (resp : DoajResponse) :
    (validate_and_link task resp).outcomeCount = 1
      ∧ (validate_and_link task resp).sinkPuts.length ≤ 1 := by
  rcases resp with ⟨st, results⟩
  by_cases h1 : optTruthy task.2.id = true
  · by_cases h2 : st = 200
    · subst h2
      rcases results with _ | ⟨_ | ⟨r0, rest⟩⟩ <;>
        simp [validate_and_link, h1, ValidateEffects.outcomeCount]
    · by_cases h3 : st = 429 <;>
        simp [validate_and_link, h1, h2, h3, ValidateEffects.outcomeCount]
  · simp [validate_and_link, h1, ValidateEffects.outcomeCount]

/-- C9: the final counter contents (the count each key maps to, i.e. the
counters compared as Python `Counter` mappings) after folding a fixed
multiset of dequeued records is the same for every order in which the
records are folded. -/
theorem counters_fold_order_invariant (s : CountersState)
    (l1 l2 : List (Nat × Article)) (hp : l1.Perm l2) :
    (∀ k : AKey, Counter.countOf (foldCounters s l1).authors k
        = Counter.countOf (foldCounters s l2).authors k)
      ∧ (∀ k : JKey, Counter.countOf (foldCounters s l1).journals k
        = Counter.countOf (foldCounters s l2).journals k)
      ∧ (∀ k : AKey, Counter.countOf (foldCounters s l1).departments k
        = Counter.countOf (foldCounters s l2).departments k) := by
  refine ⟨fun k => ?_, fun k => ?_, fun k => ?_⟩
  · rw [foldCounters_authors, foldCounters_authors, (hp.map _).sum_eq]
  · rw [foldCounters_journals, foldCounters_journals, (hp.map _).sum_eq]
  · rw [foldCounters_departments, foldCounters_departments, hp.length_eq]

/-- Witness for C9 on a two-record list and its transposition. -/
theorem counters_fold_order_invariant_witness :
    Counter.countOf (foldCounters initCounters [(0, artAff), (1, artPlain)]).authors
        ("Alice", some "doaj-0001", some "10.1371/journal.pone.0076005")
      = Counter.countOf (foldCounters initCounters [(1, artPlain), (0, artAff)]).authors
        ("Alice", some "doaj-0001", some "10.1371/journal.pone.0076005") :=
  (counters_fold_order_invariant initCounters [(0, artAff), (1, artPlain)]
      [(1, artPlain), (0, artAff)] (List.Perm.swap (1, artPlain) (0, artAff) [])).1
    ("Alice", some "doaj-0001", some "10.1371/journal.pone.0076005")

/-- C10: when the DOAJ query of a dequeued item succeeds with at least one
result, the single item forwarded to the sink keeps the dequeued sequence
position and carries the record merged with the first result's identifier
(`doaj_id`) and author list (`doaj_authors`, possibly empty), all other
record fields unchanged. -/
theorem forward_preserves_position_and_merges (aid : Nat) (article : Article)
    (resp : DoajResponse) (r0 : DoajResult) (rest : List DoajResult)
    (h1 : optTruthy article.id = true) (h2 : resp.status = 200)
    (h3 : resp.results = some (r0 :: rest)) :
    (validate_and_link (aid, article) resp).sinkPuts = [(aid, mergeDoaj article r0)]
      ∧ (mergeDoaj article r0).doaj_id = some r0.id
      ∧ (mergeDoaj article r0).doaj_authors = r0.bibjson.author.getD []
      ∧ (mergeDoaj article r0).id = article.id
      ∧ (mergeDoaj article r0).journal = article.journal
      ∧ (mergeDoaj article r0).author_display = article.author_display := by
  refine ⟨?_, rfl, rfl, rfl, rfl, rfl⟩
  simp [validate_and_link, h1, h2, h3]

/-- Witness for C10 at a concrete dequeued item and matching response. -/
theorem forward_preserves_position_and_merges_witness :
    (validate_and_link (7, artPlain) respMatch).sinkPuts = [(7, mergeDoaj artPlain doajRes0)]
      ∧ (mergeDoaj artPlain doajRes0).doaj_id = some doajRes0.id
      ∧ (mergeDoaj artPlain doajRes0).doaj_authors = doajRes0.bibjson.author.getD []
      ∧ (mergeDoaj artPlain doajRes0).id = artPlain.id
      ∧ (mergeDoaj artPlain doajRes0).journal = artPlain.journal
      ∧ (mergeDoaj artPlain doajRes0).author_display = artPlain.author_display :=
  forward_preserves_position_and_merges 7 artPlain respMatch doajRes0 [] rfl rfl rfl

end Run
